import Mathlib

/-!
Shallow embedding of the learner training loop of
pytorch_neural_symbolic_machines (nsm/learner.py), together with proofs
about its checkpoint-publication protocol, gradient-accumulation and
freeze-boundary control flow, loss computation, and error behaviour.

Checkpoint paths have the form work_dir/agent_state.iter<N>.bin and are
uniquely determined by the training iteration N, so the embedding
identifies a checkpoint path with its iteration number (a Nat).
-/

namespace NSMLearner

/-- Configuration options read at the top of Learner.train
(learner.py lines 67 to 74).  Learning rates and paths that the claims
never touch are omitted. -/
structure Config where
  saveEveryNiter : Nat
  entropyRegWeight : ℚ
  maxTrainStep : Nat
  saveProgramCacheNiter : Nat
  freezeBertForNiter : Nat
  gradientAccumulationNiter : Nat
  deriving DecidableEq

/-- One training sample as the loss computation sees it: the log
probability returned by the agent for its trajectory (line 123) and the
sample weight field (line 125). -/
structure Sample where
  logProb : ℚ
  weight : ℚ
  deriving DecidableEq

/-- Mean of a tensor of rationals.  torch returns NaN for the mean of an
empty tensor, modelled here as none. -/
def tensorMean (xs : List ℚ) : Option ℚ :=
  if xs.isEmpty then none else some (xs.sum / (xs.length : ℚ))

/-- Lines 120 to 131: multiply each log probability by its sample weight
(lines 125 to 126), negate the mean (line 128), and divide by the
accumulation factor when it exceeds one (lines 130 to 131).  none models
a NaN loss value. -/
def computeLoss (cfg : Config) (batch : List Sample) : Option ℚ :=
  let weighted := batch.map (fun s => s.logProb * s.weight)
  match tensorMean weighted with
  | none => none
  | some m =>
    let loss := -m
    some (if 1 < cfg.gradientAccumulationNiter then
            loss / (cfg.gradientAccumulationNiter : ℚ)
          else loss)

/-- Runtime errors the loop body can raise. -/
inductive LearnerError
  | unboundLocalEntropy
  | zeroDivisionCacheStat
  deriving DecidableEq

/-- Observable outcome of one loop iteration: the train_iter counter
after the iteration and the loss value (none models NaN). -/
structure IterOutcome where
  trainIterAfter : Nat
  lossVal : Option ℚ
  deriving DecidableEq

/-- The local variable entropy of Learner.train as it stands when line
137 reads it: no statement of the loop body ever assigns it, so the read
finds it unbound. -/
def entropyLocal : Option ℚ := none

/-- One iteration of the loop body of Learner.train restricted to the
counter update, loss computation and entropy branch:
line 108 increments train_iter, lines 120 to 131 compute the loss with
no emptiness guard on the batch, and lines 136 to 142 add the entropy
regularisation term when entropyRegWeight is nonzero, reading the local
variable entropy (which is never assigned, raising UnboundLocalError). -/
def trainLoopIter (cfg : Config) (trainIter : Nat) (batch : List Sample) :
    Except LearnerError IterOutcome :=
  let trainIterNow := trainIter + 1
  let loss := computeLoss cfg batch
  if cfg.entropyRegWeight ≠ 0 then
    match entropyLocal with
    | none => Except.error LearnerError.unboundLocalEntropy
    | some e =>
      let entRegLoss := -cfg.entropyRegWeight * e
      Except.ok { trainIterAfter := trainIterNow,
                  lossVal := loss.map (fun x => x + entRegLoss) }
  else
    Except.ok { trainIterAfter := trainIterNow, lossVal := loss }

/-- The statistics dictionary returned by SharedProgramCache.stat
(spec section 3: both fields are integers). -/
structure ProgramCacheStat where
  numEntries : Nat
  numEnvs : Nat
  deriving DecidableEq

/-- Line 181: program_cache_stat num_entries divided by num_envs with no
guard.  Python division raises ZeroDivisionError when the denominator is
zero, modelled as an error. -/
def avgCacheSize (st : ProgramCacheStat) : Except LearnerError ℚ :=
  if st.numEnvs = 0 then Except.error LearnerError.zeroDivisionCacheStat
  else Except.ok ((st.numEntries : ℚ) / (st.numEnvs : ℚ))

/-- Optimizer-level events emitted by one iteration of the loop body. -/
inductive Event
  | zeroGradOther
  | zeroGradBert
  | backward
  | clipGrad
  | stepOther
  | stepBert
  | resetOtherOptimizer
  deriving DecidableEq

/-- Optimizer events of one iteration of Learner.train, in program
order: zero_grad on both optimizers (lines 109 to 110), loss.backward
(line 144), clip_grad_norm_ on the non-BERT parameters (line 148,
unconditional), then the accumulation-boundary block (lines 150 to 157):
other_optimizer.step, then bert_optimizer.step when train_iter exceeds
the freeze threshold, or reconstruction of other_optimizer when
train_iter equals it. -/
def iterBody (cfg : Config) (t : Nat) : List Event :=
  [Event.zeroGradOther, Event.zeroGradBert, Event.backward, Event.clipGrad] ++
  (if t % cfg.gradientAccumulationNiter = 0 then
      Event.stepOther ::
        (if cfg.freezeBertForNiter < t then [Event.stepBert]
         else if t = cfg.freezeBertForNiter then [Event.resetOtherOptimizer]
         else [])
    else [])

/-- optimizer.zero_grad: discards the accumulated gradient. -/
def zeroGradVal (_g : ℚ) : ℚ := 0

/-- The factor by which the loss (hence its gradient) is scaled before
backward, per lines 130 to 131. -/
def lossScale (cfg : Config) : ℚ :=
  if 1 < cfg.gradientAccumulationNiter then
    (1 : ℚ) / (cfg.gradientAccumulationNiter : ℚ)
  else 1

/-- loss.backward at iteration t: adds the scaled gradient contribution
g t of that iteration onto the stored gradient. -/
def backwardAdd (cfg : Config) (g : Nat → ℚ) (t : Nat) (grad : ℚ) : ℚ :=
  grad + lossScale cfg * g t

/-- The gradient buffer of the non-BERT parameter group as it stands
right after loss.backward of iteration n, i.e. when clip_grad_norm_ and
a possible optimizer step run: each iteration first executes zero_grad
(lines 109 to 110) and then backward (line 144); optimizer.step does not
clear gradients. -/
def gradAfterBackward (cfg : Config) (g : Nat → ℚ) : Nat → ℚ
  | 0 => 0
  | n + 1 => backwardAdd cfg g (n + 1) (zeroGradVal (gradAfterBackward cfg g n))

/-- The Learner process state relevant to checkpoint publication:
self.current_model_path, the contents of self.checkpoint_queue (FIFO,
appended at the tail), the shared eval_msg_val slot, and the set of
checkpoint files on disk (each identified by its iteration number). -/
structure LearnerState where
  currentModelPath : Option Nat
  checkpointQueue : List (Option Nat)
  evalMsgVal : Option Nat
  files : List Nat
  deriving DecidableEq

/-- State at Learner construction: current_model_path is None, the queue
is empty, the evaluator slot unset, no checkpoint file on disk. -/
def initLearnerState : LearnerState :=
  { currentModelPath := none, checkpointQueue := [], evalMsgVal := none,
    files := [] }

/-- Learner.push_new_model (lines 217 to 220): put model_path on the
checkpoint queue unconditionally; write the evaluator slot only when
model_path is truthy (a non-None path). -/
def push_new_model (s : LearnerState) (modelPath : Option Nat) : LearnerState :=
  let s1 := { s with checkpointQueue := s.checkpointQueue ++ [modelPath] }
  match modelPath with
  | some p => { s1 with evalMsgVal := some p }
  | none => s1

/-- Filesystem and channel events emitted during checkpoint
publication. -/
inductive PubEvent
  | saveCheckpoint (p : Nat)
  | pushQueue (p : Option Nat)
  | writeSlot (p : Nat)
  | deleteFile (p : Nat)
  deriving DecidableEq

/-- Events of Learner.push_new_model: the queue put (line 218) followed
by the slot write when the path is non-None (lines 219 to 220). -/
def push_new_modelEv (modelPath : Option Nat) : List PubEvent :=
  PubEvent.pushQueue modelPath ::
    (match modelPath with
     | some p => [PubEvent.writeSlot p]
     | none => [])

/-- Learner.update_model_to_actors (lines 204 to 215): torch.save writes
the new checkpoint file (line 208), push_new_model publishes its path
(line 210), the previously current file, if any, is removed (lines 213
to 214), and current_model_path is set to the new path (line 215).
Returns the new state and the events in program order. -/
def update_model_to_actors (s : LearnerState) (trainIter : Nat) :
    LearnerState × List PubEvent :=
  let modelSavePath := trainIter
  let s1 := { s with files := s.files ++ [modelSavePath] }
  let s2 := push_new_model s1 (some modelSavePath)
  let s3 :=
    match s2.currentModelPath with
    | some old => { s2 with files := s2.files.erase old }
    | none => s2
  let delEvents :=
    match s2.currentModelPath with
    | some old => [PubEvent.deleteFile old]
    | none => []
  ({ s3 with currentModelPath := some modelSavePath },
   PubEvent.saveCheckpoint modelSavePath ::
     (push_new_modelEv (some modelSavePath) ++ delEvents))

/-- The checkpoint-publication part of one iteration of Learner.train
(lines 169 to 190): at a save boundary (train_iter divisible by
save_every_niter) run update_model_to_actors; otherwise re-publish the
existing current_model_path through push_new_model. -/
def checkpointStep (cfg : Config) (s : LearnerState) (trainIter : Nat) :
    LearnerState :=
  if trainIter % cfg.saveEveryNiter = 0 then
    (update_model_to_actors s trainIter).1
  else
    push_new_model s s.currentModelPath

/-- The checkpoint-publication state after n iterations of the training
loop, starting from the freshly constructed Learner. -/
def runCheckpointLoop (cfg : Config) : Nat → LearnerState
  | 0 => initLearnerState
  | n + 1 => checkpointStep cfg (runCheckpointLoop cfg n) (n + 1)

/-- The state has a current checkpoint path and the checkpoint files on
disk are exactly that one file. -/
def exactlyOneCurrentFile (s : LearnerState) : Prop :=
  match s.currentModelPath with
  | none => False
  | some p => s.files = [p]

/-- A baseline configuration: no entropy regularisation, no gradient
accumulation, no BERT freezing. -/
def cfgPlain : Config :=
  { saveEveryNiter := 10, entropyRegWeight := 0, maxTrainStep := 100,
    saveProgramCacheNiter := 0, freezeBertForNiter := 0,
    gradientAccumulationNiter := 1 }

/-- A configuration with nonzero entropy regularisation weight. -/
def cfgEnt : Config :=
  { saveEveryNiter := 10, entropyRegWeight := 1/10, maxTrainStep := 100,
    saveProgramCacheNiter := 0, freezeBertForNiter := 0,
    gradientAccumulationNiter := 1 }

/-- A configuration with gradient accumulation over K = 2 iterations. -/
def cfgK2 : Config :=
  { saveEveryNiter := 100, entropyRegWeight := 0, maxTrainStep := 4,
    saveProgramCacheNiter := 0, freezeBertForNiter := 0,
    gradientAccumulationNiter := 2 }

/-- A configuration with K = 2 accumulation and a freeze threshold of 1,
which is not an accumulation boundary. -/
def cfgFreeze : Config :=
  { saveEveryNiter := 100, entropyRegWeight := 0, maxTrainStep := 4,
    saveProgramCacheNiter := 0, freezeBertForNiter := 1,
    gradientAccumulationNiter := 2 }

/-- Claim C6: whenever entropy_reg_weight is nonzero, the loop body hits
line 137, which reads the never-assigned local variable entropy and so
aborts with an error instead of silently skipping the regularisation
term. -/
theorem entropy_branch_fails_fast (cfg : Config) (trainIter : Nat)
    (batch : List Sample) (h : cfg.entropyRegWeight ≠ 0) :
    trainLoopIter cfg trainIter batch =
      Except.error LearnerError.unboundLocalEntropy := by
  simp [trainLoopIter, entropyLocal, h]

/-- Witness for C6 at a concrete configuration and batch. -/
theorem entropy_branch_fails_fast_witness :
    cfgEnt.entropyRegWeight ≠ 0 ∧
    trainLoopIter cfgEnt 5 [{ logProb := 1, weight := 1 }] =
      Except.error LearnerError.unboundLocalEntropy :=
  ⟨by norm_num [cfgEnt],
   entropy_branch_fails_fast cfgEnt 5 [{ logProb := 1, weight := 1 }]
     (by norm_num [cfgEnt])⟩

/-- Claim C10: at a save boundary the average cache size is
num_entries / num_envs with no guard; the division succeeds exactly when
num_envs is nonzero and raises ZeroDivisionError (aborting the loop)
when num_envs is zero. -/
theorem avg_cache_size_division_guard (st : ProgramCacheStat) :
    (st.numEnvs = 0 →
      avgCacheSize st = Except.error LearnerError.zeroDivisionCacheStat) ∧
    (st.numEnvs ≠ 0 →
      avgCacheSize st = Except.ok ((st.numEntries : ℚ) / (st.numEnvs : ℚ))) := by
  constructor <;> intro h <;> simp [avgCacheSize, h]

/-- Witness for C10 at concrete statistics, on both sides. -/
theorem avg_cache_size_division_guard_witness :
    avgCacheSize { numEntries := 6, numEnvs := 0 } =
      Except.error LearnerError.zeroDivisionCacheStat ∧
    avgCacheSize { numEntries := 6, numEnvs := 3 } =
      Except.ok ((6 : ℚ) / (3 : ℚ)) :=
  ⟨(avg_cache_size_division_guard { numEntries := 6, numEnvs := 0 }).1 rfl,
   (avg_cache_size_division_guard { numEntries := 6, numEnvs := 3 }).2 (by decide)⟩

/-- Claim C5, code evaluated at the failing input: the loop body has no
emptiness guard, so an empty batch is not rejected: the iteration
completes without error, the counter has already advanced from 7 to 8,
and the loss value is NaN (the mean of an empty tensor). -/
theorem empty_batch_not_rejected :
    trainLoopIter cfgPlain 7 [] =
      Except.ok { trainIterAfter := 8, lossVal := none } := by
  simp [trainLoopIter, computeLoss, tensorMean, cfgPlain]

/-- Claim C8: for a non-empty batch the loss is the negative mean of the
weight-scaled per-sample log probabilities, additionally multiplied by
1/K exactly when the accumulation factor K exceeds one. -/
theorem loss_formula (cfg : Config) (batch : List Sample) (h : batch ≠ []) :
    computeLoss cfg batch = some
      ((if 1 < cfg.gradientAccumulationNiter then
          (1 : ℚ) / (cfg.gradientAccumulationNiter : ℚ) else 1) *
        (-((batch.map (fun s => s.logProb * s.weight)).sum /
            (batch.length : ℚ)))) := by
  have hne : (batch.map (fun s => s.logProb * s.weight)).isEmpty = false := by
    simp [List.isEmpty_iff, h]
  simp only [computeLoss, tensorMean, hne, Bool.false_eq_true, if_false,
    List.length_map]
  split <;> exact congrArg some (by ring)

/-- Witness for C8 at a concrete one-sample batch. -/
theorem loss_formula_witness :
    computeLoss cfgPlain [{ logProb := 2, weight := 3 }] = some
      ((if 1 < cfgPlain.gradientAccumulationNiter then
          (1 : ℚ) / (cfgPlain.gradientAccumulationNiter : ℚ) else 1) *
        (-((([{ logProb := 2, weight := 3 }] : List Sample).map
              (fun s => s.logProb * s.weight)).sum /
            (([{ logProb := 2, weight := 3 }] : List Sample).length : ℚ)))) :=
  loss_formula cfgPlain [{ logProb := 2, weight := 3 }] (List.cons_ne_nil _ _)

/-- Claim C7 counterexample: with K = 2, iteration 1 is not an
accumulation boundary, yet gradient clipping runs there. -/
theorem clip_runs_on_intermediate_iteration :
    cfgK2.gradientAccumulationNiter = 2 ∧
    1 % cfgK2.gradientAccumulationNiter ≠ 0 ∧
    Event.clipGrad ∈ iterBody cfgK2 1 := by
  decide

/-- Claim C7 amended: gradient-norm clipping runs exactly once on every
training-loop iteration, after backward and before the conditional
optimizer-step block, regardless of the accumulation factor. -/
theorem clip_every_iteration (cfg : Config) (t : Nat) :
    ∃ l, iterBody cfg t =
        [Event.zeroGradOther, Event.zeroGradBert, Event.backward,
          Event.clipGrad] ++ l ∧
      Event.clipGrad ∉ l := by
  unfold iterBody
  refine ⟨_, rfl, ?_⟩
  split_ifs <;> simp_all

/-- Claim C4 counterexample: with K = 2 and freeze threshold F = 1, the
iteration whose counter equals F performs no reconstruction of the
secondary (non-BERT) optimizer, because the reset is nested inside the
accumulation-boundary conditional. -/
theorem no_reset_at_freeze_iteration :
    cfgFreeze.freezeBertForNiter = 1 ∧
    Event.resetOtherOptimizer ∉ iterBody cfgFreeze 1 := by
  decide

/-- Claim C4 amended: the BERT optimizer steps exactly at accumulation
boundaries past the freeze threshold (so never at iterations at or below
it), and the secondary-optimizer reconstruction happens at iteration F
exactly when F is also an accumulation boundary; at iterations other
than F it never happens. -/
theorem freeze_boundary_amended (cfg : Config) :
    (∀ t, Event.stepBert ∈ iterBody cfg t ↔
        (t % cfg.gradientAccumulationNiter = 0 ∧ cfg.freezeBertForNiter < t)) ∧
    (∀ t, Event.resetOtherOptimizer ∈ iterBody cfg t ↔
        (t = cfg.freezeBertForNiter ∧
          t % cfg.gradientAccumulationNiter = 0)) := by
  constructor
  · intro t
    unfold iterBody
    split_ifs <;> simp_all
  · intro t
    unfold iterBody
    split_ifs <;> simp_all
    omega

/-- Claim C3, code evaluated at the failing input: with K = 2 and a
gradient contribution of 1 at iteration 1 and 0 at iteration 2, the
iteration-1 contribution (scaled to 1/2) is present after backward at
iteration 1 but gone at iteration 2, the accumulation boundary where the
optimizer steps, because zero_grad runs at the top of every iteration. -/
theorem grad_cleared_between_iterations :
    gradAfterBackward cfgK2 (fun t => if t = 1 then 1 else 0) 1 = 1/2 ∧
    gradAfterBackward cfgK2 (fun t => if t = 1 then 1 else 0) 2 = 0 ∧
    2 % cfgK2.gradientAccumulationNiter = 0 := by
  refine ⟨?_, ?_, by decide⟩ <;>
  · norm_num [gradAfterBackward, backwardAdd, zeroGradVal, lossScale, cfgK2]

/-- Claim C1: within update_model_to_actors the torch.save event strictly
precedes both publication events (the checkpoint-queue put and the
evaluator-slot write) of the new path, and the save event never recurs
later in the sequence. -/
theorem save_precedes_publication (s : LearnerState) (t : Nat) :
    ∃ tl, (update_model_to_actors s t).2 = PubEvent.saveCheckpoint t :: tl ∧
      PubEvent.pushQueue (some t) ∈ tl ∧ PubEvent.writeSlot t ∈ tl ∧
      PubEvent.saveCheckpoint t ∉ tl := by
  cases h : s.currentModelPath with
  | none =>
      refine ⟨[PubEvent.pushQueue (some t), PubEvent.writeSlot t],
        ?_, by simp, by simp, by simp⟩
      simp [update_model_to_actors, push_new_model, push_new_modelEv, h]
  | some old =>
      refine ⟨[PubEvent.pushQueue (some t), PubEvent.writeSlot t,
          PubEvent.deleteFile old], ?_, by simp, by simp, by simp⟩
      simp [update_model_to_actors, push_new_model, push_new_modelEv, h]

/-- push_new_model never changes current_model_path. -/
theorem push_new_model_currentModelPath (s : LearnerState) (mp : Option Nat) :
    (push_new_model s mp).currentModelPath = s.currentModelPath := by
  cases mp <;> simp [push_new_model]

/-- push_new_model never touches the filesystem. -/
theorem push_new_model_files (s : LearnerState) (mp : Option Nat) :
    (push_new_model s mp).files = s.files := by
  cases mp <;> simp [push_new_model]

/-- Invariant tying the loop counter to the checkpoint state: before the
first save boundary nothing is current and no checkpoint file exists;
from the first boundary on, exactly the current file exists. -/
def CheckpointInv (cfg : Config) (n : Nat) (s : LearnerState) : Prop :=
  if n < cfg.saveEveryNiter then
    s.currentModelPath = none ∧ s.files = []
  else
    exactlyOneCurrentFile s

/-- The checkpoint invariant holds along the whole training loop. -/
theorem checkpointInv_holds (cfg : Config) (hse : 1 ≤ cfg.saveEveryNiter) :
    ∀ n, CheckpointInv cfg n (runCheckpointLoop cfg n) := by
  intro n
  induction n with
  | zero =>
      unfold CheckpointInv runCheckpointLoop
      rw [if_pos (by omega)]
      exact ⟨rfl, rfl⟩
  | succ n ih =>
      simp only [runCheckpointLoop, checkpointStep]
      by_cases hmod : (n + 1) % cfg.saveEveryNiter = 0
      · rw [if_pos hmod]
        have hge : cfg.saveEveryNiter ≤ n + 1 :=
          Nat.le_of_dvd (Nat.succ_pos n) (Nat.dvd_of_mod_eq_zero hmod)
        simp only [CheckpointInv] at ih ⊢
        rw [if_neg (by omega)]
        by_cases hlt : n < cfg.saveEveryNiter
        · rw [if_pos hlt] at ih
          obtain ⟨hc, hf⟩ := ih
          simp [update_model_to_actors, exactlyOneCurrentFile,
            push_new_model_currentModelPath, push_new_model_files,
            push_new_model, hc, hf]
        · rw [if_neg hlt] at ih
          unfold exactlyOneCurrentFile at ih ⊢
          cases hc : (runCheckpointLoop cfg n).currentModelPath with
          | none => rw [hc] at ih; exact absurd ih (by simp)
          | some old =>
              rw [hc] at ih
              simp [update_model_to_actors, push_new_model, hc, ih,
                List.erase_cons_head]
      · rw [if_neg hmod]
        have hne : n + 1 ≠ cfg.saveEveryNiter := by
          intro he
          exact hmod (by rw [he, Nat.mod_self])
        simp only [CheckpointInv] at ih ⊢
        by_cases hlt : n < cfg.saveEveryNiter
        · rw [if_pos hlt] at ih
          rw [if_pos (by omega)]
          obtain ⟨hc, hf⟩ := ih
          rw [hc]
          simp [push_new_model, hc, hf]
        · rw [if_neg hlt] at ih
          rw [if_neg (by omega)]
          unfold exactlyOneCurrentFile at ih ⊢
          rw [push_new_model_currentModelPath, push_new_model_files]
          exact ih

/-- Claim C2: once the loop has passed the first save boundary, the
checkpoint files on disk are exactly the single file named by
current_model_path: every boundary publication saves a new file, deletes
the previously current one and makes the new file current. -/
theorem exactly_one_current_checkpoint_file (cfg : Config) (n : Nat)
    (h1 : 1 ≤ cfg.saveEveryNiter) (h2 : cfg.saveEveryNiter ≤ n) :
    exactlyOneCurrentFile (runCheckpointLoop cfg n) := by
  have h := checkpointInv_holds cfg h1 n
  unfold CheckpointInv at h
  rwa [if_neg (by omega)] at h

/-- A configuration saving every 2 iterations. -/
def cfgSave2 : Config :=
  { saveEveryNiter := 2, entropyRegWeight := 0, maxTrainStep := 10,
    saveProgramCacheNiter := 0, freezeBertForNiter := 0,
    gradientAccumulationNiter := 1 }

/-- Witness for C2 after 5 iterations with boundaries at 2 and 4. -/
theorem exactly_one_current_checkpoint_file_witness :
    1 ≤ cfgSave2.saveEveryNiter ∧ cfgSave2.saveEveryNiter ≤ 5 ∧
    exactlyOneCurrentFile (runCheckpointLoop cfgSave2 5) :=
  ⟨by decide, by decide,
   exactly_one_current_checkpoint_file cfgSave2 5 (by decide) (by decide)⟩

/-- Claim C9: on every iteration before the first save boundary the
re-publish branch puts the value None on the checkpoint queue, while the
evaluator slot stays unset (the write at line 220 is guarded on a truthy
path) and current_model_path is still None. -/
theorem republish_none_before_first_boundary (cfg : Config) (t : Nat)
    (h : t < cfg.saveEveryNiter) :
    (runCheckpointLoop cfg t).checkpointQueue = List.replicate t none ∧
    (runCheckpointLoop cfg t).evalMsgVal = none ∧
    (runCheckpointLoop cfg t).currentModelPath = none := by
  induction t with
  | zero => simp [runCheckpointLoop, initLearnerState]
  | succ n ih =>
      obtain ⟨hq, hs, hc⟩ := ih (Nat.lt_of_succ_lt h)
      have hmod : (n + 1) % cfg.saveEveryNiter ≠ 0 := by
        rw [Nat.mod_eq_of_lt h]
        exact Nat.succ_ne_zero n
      simp [runCheckpointLoop, checkpointStep, hmod, hc, push_new_model,
        hq, hs, List.replicate_succ']

/-- Witness for C9 at a concrete configuration, two iterations before
the first boundary at 10. -/
theorem republish_none_before_first_boundary_witness :
    2 < cfgPlain.saveEveryNiter ∧
    ((runCheckpointLoop cfgPlain 2).checkpointQueue = List.replicate 2 none ∧
     (runCheckpointLoop cfgPlain 2).evalMsgVal = none ∧
     (runCheckpointLoop cfgPlain 2).currentModelPath = none) :=
  ⟨by decide, republish_none_before_first_boundary cfgPlain 2 (by decide)⟩

end NSMLearner
